import Mathlib

/-!
# Verification of the OKX trading-bot core (`okx_bot`)

Shallow embedding of the claim-relevant parts of the repository:

* `BotController.calculate_daily_realized_pnl` (src/okx/okx_bot/server.py,
  lines 334-391): the FIFO realized-PnL ledger.
* `TrendRSIStrategy.check_signals` (src/okx/okx_bot/strategies/trend_rsi.py,
  lines 103-157): the per-symbol position state machine.
* The cooldown filter of `BotController.run_loop` (src/okx/okx_bot/server.py,
  lines 148-157).
* `BotController.start` / `stop` / `get_status` / `update_history_data` /
  `execute_order` (src/okx/okx_bot/server.py).

Modelling conventions:
* Python floats are modelled as `ℚ`; a possibly-NaN indicator value is
  `Option ℚ` with `none` for NaN, and every comparison against `none`
  is `false` (IEEE semantics of comparisons with NaN).
* Millisecond timestamps are `Int`; the calendar date of a timestamp is its
  epoch-day index (`Int.fdiv` by 86 400 000 ms), standing in for
  `datetime.fromtimestamp(ms / 1000).date()`.  The code also accepts
  ISO-formatted string timestamps (skipping unparseable ones); the claims
  only concern the numeric branch, which is what is embedded here.
* Python's stable `sorted(key = time)` is modelled by `List.mergeSort`
  (also a stable sort) with the time key.
* Mutable attribute state is passed explicitly: methods become functions
  `BotState → BotState × result`, and a Python attribute that may be unset
  (`session_start_nav`) is an `Option` field, `none` meaning
  "attribute missing" (so reading it raises `AttributeError`).
-/

namespace OkxBot

/-- One entry of `BotController.trades`:
`{'time', 'side', 'price', 'amount', 'symbol'}`.  `side` is kept as a string
because the source stores the signal string and re-uppercases it when the
ledger reads it.  The source's `t.get('symbol', 'BTC/USDT')` default is not
needed here because the field is always present in the model. -/
structure TradeRecord where
  time : Int
  side : String
  price : ℚ
  amount : ℚ
  symbol : String
deriving Repr, DecidableEq

/-- Python's `str.upper()` (for the ASCII side strings that occur here),
written directly over the character list so that it evaluates by `decide`. -/
def pyUpper (s : String) : String := String.mk (s.data.map Char.toUpper)

/-- One FIFO inventory batch `{'price': float, 'amount': float}`. -/
structure Batch where
  price : ℚ
  amount : ℚ
deriving Repr, DecidableEq

/-- Epoch-day index of a millisecond timestamp: the model of
`datetime.fromtimestamp(ms / 1000).date()`. -/
def dateOf (ms : Int) : Int := ms.fdiv 86400000

/-- Local state of one `calculate_daily_realized_pnl` call: the per-symbol
inventories dict (total function, absent key = empty list, matching
`if symbol not in inventories: inventories[symbol] = []`) and the
accumulated `daily_realized_pnl`. -/
structure LedgerState where
  inv : String → List Batch
  pnl : ℚ

/-- Pointwise update of the inventories dict at one symbol. -/
def updInv (f : String → List Batch) (s : String) (v : List Batch) :
    String → List Batch :=
  fun t => if t = s then v else f t

/-- The `while qty_to_fill > 0 and inventory:` loop of the SELL branch.
Returns `(cost_basis accumulated from matched lots, leftover qty_to_fill,
remaining inventory)`.  A front batch larger than the demand is decremented
in place; otherwise it is consumed whole and popped. -/
def consume : ℚ → List Batch → ℚ × ℚ × List Batch
  | qty, [] => (0, qty, [])
  | qty, b :: rest =>
    if qty ≤ 0 then (0, qty, b :: rest)
    else if qty < b.amount then
      (b.price * qty, 0, { price := b.price, amount := b.amount - qty } :: rest)
    else
      let r := consume (qty - b.amount) rest
      (b.price * b.amount + r.1, r.2.1, r.2.2)

/-- The body of the `for t in sorted_trades:` loop: one trade applied to the
ledger state.  BUY appends a fresh batch to the symbol's queue; SELL consumes
FIFO, prices any unmatched remainder at the sale price
(`if qty_to_fill > 0: cost_basis += price * qty_to_fill`), and adds
`price*amount - cost_basis` to the daily total only when the trade is dated
`today`.  Any other side falls through with no effect. -/
def stepTrade (today : Int) (st : LedgerState) (t : TradeRecord) : LedgerState :=
  let is_today := dateOf t.time = today
  let inventory := st.inv t.symbol
  if pyUpper t.side = "BUY" then
    let newInv := inventory ++ [{ price := t.price, amount := t.amount }]
    { st with inv := updInv st.inv t.symbol newInv }
  else if pyUpper t.side = "SELL" then
    let r := consume t.amount inventory
    let cost_basis := r.1 + (if 0 < r.2.1 then t.price * r.2.1 else 0)
    let trade_pnl := t.price * t.amount - cost_basis
    { inv := updInv st.inv t.symbol r.2.2,
      pnl := st.pnl + (if is_today then trade_pnl else 0) }
  else st

/-- The sort key of `sorted(self.trades, key=lambda x: x['time'])`. -/
def byTime (a b : TradeRecord) : Bool := decide (a.time ≤ b.time)

/-- `calculate_daily_realized_pnl`, with the final state exposed: sort the
log ascending by time (stably), then fold the per-trade step starting from
empty inventories and zero PnL. -/
def runLedger (trades : List TradeRecord) (today : Int) : LedgerState :=
  (trades.mergeSort byTime).foldl (stepTrade today) { inv := fun _ => [], pnl := 0 }

/-- `BotController.calculate_daily_realized_pnl` (src/okx/okx_bot/server.py,
lines 334-391), as a function of the trade log and the query day. -/
def calculate_daily_realized_pnl (trades : List TradeRecord) (today : Int) : ℚ :=
  (runLedger trades today).pnl

/-- The body of `calculate_daily_realized_pnl` reads `self.trades` once and
writes no attribute of the controller: `sorted_trades`, `inventories` and
every batch dict are locals created inside the call (the BUY branch appends
`{'price': price, 'amount': amount}`, a fresh dict built from scalar copies,
so the in-place `batch['amount'] -= qty_to_fill` of the SELL branch cannot
reach a stored trade record).  Its state-passing translation therefore
returns the controller state unchanged, paired with the computed figure. -/
def calcPnlCall (trades : List TradeRecord) (today : Int) :
    List TradeRecord × ℚ :=
  (trades, calculate_daily_realized_pnl trades today)

/-! ## The `TrendRSIStrategy` state machine
(src/okx/okx_bot/strategies/trend_rsi.py) -/

/-- A trading signal as returned by `check_signals`. -/
inductive Signal
  | BUY
  | SELL
deriving Repr, DecidableEq

/-- The value of `self.position`: `None`, `'LONG'` or `'SHORT'`. -/
inductive Pos
  | LONG
  | SHORT
deriving Repr, DecidableEq

/-- The last indicator row (`self.df.iloc[-1]`): close price plus the
derived `sma_20` and `rsi` columns, which are `none` while the rolling
windows warm up (pandas NaN). -/
structure Row where
  close : ℚ
  sma_20 : Option ℚ
  rsi : Option ℚ
deriving Repr, DecidableEq

/-- The mutable strategy attributes read and written by `check_signals`. -/
structure StratState where
  position : Option Pos
  entry_price : ℚ
  sl_pct : ℚ
  tp_pct : ℚ
  rsi_buy_thresh : ℚ
  rsi_sell_thresh : ℚ
deriving Repr, DecidableEq

/-- `price > v` for a possibly-NaN `v`: any comparison with NaN is false. -/
def nanGtv (price : ℚ) (v : Option ℚ) : Bool :=
  match v with
  | some x => decide (x < price)
  | none => false

/-- `price < v` for a possibly-NaN `v`. -/
def nanLtv (price : ℚ) (v : Option ℚ) : Bool :=
  match v with
  | some x => decide (price < x)
  | none => false

/-- `v < c` for a possibly-NaN `v` and a (never-NaN) threshold `c`. -/
def nanLtc (v : Option ℚ) (c : ℚ) : Bool :=
  match v with
  | some x => decide (x < c)
  | none => false

/-- `v > c` for a possibly-NaN `v` and a (never-NaN) threshold `c`. -/
def nanGtc (v : Option ℚ) (c : ℚ) : Bool :=
  match v with
  | some x => decide (c < x)
  | none => false

/-- The body of `check_signals` on the current row.  The source checks the
entry block only under `if not self.position:` (both entry branches return
immediately), then the LONG exit chain, then the SHORT exit chain, so its
control flow is exactly a case split on `self.position`; each branch
preserves the source's predicate order.  `entry_price` is only read in the
exit chains and only written on entry, matching the source. -/
def checkSignalsRow (s : StratState) (curr : Row) : Option Signal × StratState :=
  let price := curr.close
  let rsi := curr.rsi
  let sma := curr.sma_20
  match s.position with
  | none =>
    if nanGtv price sma && nanLtc rsi s.rsi_buy_thresh then
      (some Signal.BUY, { s with position := some Pos.LONG, entry_price := price })
    else if nanLtv price sma && nanGtc rsi s.rsi_sell_thresh then
      (some Signal.SELL, { s with position := some Pos.SHORT, entry_price := price })
    else (none, s)
  | some Pos.LONG =>
    if price ≤ s.entry_price * (1 - s.sl_pct) then
      (some Signal.SELL, { s with position := none })
    else if price ≥ s.entry_price * (1 + s.tp_pct) then
      (some Signal.SELL, { s with position := none })
    else if nanGtc rsi s.rsi_sell_thresh then
      (some Signal.SELL, { s with position := none })
    else (none, s)
  | some Pos.SHORT =>
    if price ≥ s.entry_price * (1 + s.sl_pct) then
      (some Signal.BUY, { s with position := none })
    else if price ≤ s.entry_price * (1 - s.tp_pct) then
      (some Signal.BUY, { s with position := none })
    else if nanLtc rsi s.rsi_buy_thresh then
      (some Signal.BUY, { s with position := none })
    else (none, s)

/-- `TrendRSIStrategy.check_signals` (src/okx/okx_bot/strategies/trend_rsi.py,
lines 103-157): no signal when `self.df is None or len(self.df) < 2`
(the `List Row` argument models `self.df`, `none` is not needed because an
absent frame behaves as the empty list here); otherwise evaluate the state
machine on `self.df.iloc[-1]`. -/
def check_signals (s : StratState) (df : List Row) : Option Signal × StratState :=
  if df.length < 2 then (none, s)
  else
    match df.getLast? with
    | some curr => checkSignalsRow s curr
    | none => (none, s)

/-! ## The cooldown filter of `BotController.run_loop`
(src/okx/okx_bot/server.py, lines 148-157) -/

/-- `self.last_trade_times`: a dict read with `.get(symbol, 0)`, modelled as
a total function whose initial value is the constant 0. -/
structure CoolState where
  last_trade_times : String → ℚ

/-- The per-symbol signal handling of one `run_loop` cycle: when a signal is
present, execute it only if more than 300 seconds have passed since this
symbol's last executed trade (`self.last_trade_times.get(symbol, 0)`), and
record the execution time; otherwise drop it, leaving the state untouched
(there is no retry queue).  Returns whether the order was executed, and the
updated state. -/
def cooldownFilter (st : CoolState) (now : ℚ) (symbol : String)
    (signal : Option Signal) : Bool × CoolState :=
  match signal with
  | none => (false, st)
  | some _ =>
    let last_t := st.last_trade_times symbol
    if now - last_t > 300 then
      (true, { last_trade_times := fun s =>
                 if s = symbol then now else st.last_trade_times s })
    else (false, st)

/-! ## The controller state and its methods
(src/okx/okx_bot/server.py, `BotController`) -/

/-- One `{time, value}` history point. -/
structure HPoint where
  time : ℚ
  value : ℚ
deriving Repr, DecidableEq

/-- The `BotController` attributes read or written by `start`, `stop`,
`get_status`, `update_history_data` and `execute_order`.  `balance` models
`self.balance['total']` as an association list of coin balances, `none`
standing for a falsy balance or one without a `'total'` key (e.g. the `None`
that `OKXClient.get_balance` returns on failure).  `session_start_nav` is
`none` while the attribute has never been assigned, so that reading it
raises `AttributeError`.  Attributes not touched by the claims (strategy
dict contents, news, scanner, price history) are omitted. -/
structure BotState where
  is_running : Bool
  mode : String
  balance : Option (List (String × ℚ))
  session_start_nav : Option ℚ
  pnl_history : List HPoint
  trades : List TradeRecord
  market_prices : List (String × ℚ)
  last_history_update : ℚ
  active_symbols : List String
  last_trade_times : String → ℚ

/-- The NAV snapshot loop of `start`: `total_nav = total.get('USDT', 0)`,
then for every other coin add `qty * price` where the price comes from the
`market_prices` cache (default 0) and, when that is 0, from a ticker fetch
(`fetchPrice`, `none` when the fetch raises, leaving the price at 0). -/
def navOf (tot : List (String × ℚ)) (prices : List (String × ℚ))
    (fetchPrice : String → Option ℚ) : ℚ :=
  tot.foldl
    (fun acc cq =>
      if cq.1 = "USDT" then acc
      else
        let cached := (prices.lookup (cq.1 ++ "/USDT")).getD 0
        let price := if cached = 0 then (fetchPrice cq.1).getD cached else cached
        acc + cq.2 * price)
    ((tot.lookup "USDT").getD 0)

/-- `BotController.start` (src/okx/okx_bot/server.py, lines 242-295),
restricted to the modelled fields: no-op message while already running;
otherwise store mode and symbols, reset `last_trade_times`, refresh the
balance from the gateway (`fetchedBalance` is the `get_balance` result), and
snapshot `session_start_nav` only when that balance has totals.  Strategy
construction and the initial `update()` calls touch only omitted fields. -/
def start (st : BotState) (mode : String) (symbols : List String)
    (fetchedBalance : Option (List (String × ℚ)))
    (fetchPrice : String → Option ℚ) : BotState × String :=
  if st.is_running then (st, "Bot already running")
  else
    let st1 := { st with
      mode := mode
      active_symbols := symbols
      last_trade_times := fun _ => 0
      balance := fetchedBalance }
    match fetchedBalance with
    | some tot =>
      let nav := navOf tot st.market_prices fetchPrice
      ({ st1 with session_start_nav := some nav, is_running := true },
        "Started " ++ mode ++ " mode")
    | none => ({ st1 with is_running := true }, "Started " ++ mode ++ " mode")

/-- `BotController.stop` (src/okx/okx_bot/server.py, lines 297-301):
idempotent; clears only the running flag (awaiting the in-flight task is
concurrency, outside this model).  No other field is assigned. -/
def stop (st : BotState) : BotState × String :=
  if st.is_running = false then (st, "Already stopped")
  else ({ st with is_running := false }, "Bot stopped")

/-- Python's `xs[-n:]`. -/
def lastN (n : Nat) (l : List HPoint) : List HPoint := l.drop (l.length - n)

/-- `BotController.update_history_data` (src/okx/okx_bot/server.py,
lines 205-240), restricted to the global PnL history: rate-limited by the
10-second guard; `total_pnl` stays 0 unless the balance has totals and
`session_start_nav` is set and non-zero (`if hasattr(...) and
self.session_start_nav:`); the new point is appended and the history kept to
its last 100 entries.  The per-symbol price-history block touches only
omitted fields. -/
def update_history_data (st : BotState) (now : ℚ) : BotState :=
  if now - st.last_history_update < 10 then st
  else
    let total_pnl :=
      match st.balance with
      | some tot =>
        let usdt := (tot.lookup "USDT").getD 0
        let current_nav := tot.foldl
          (fun acc cq =>
            if cq.1 = "USDT" then acc
            else acc + cq.2 * ((st.market_prices.lookup (cq.1 ++ "/USDT")).getD 0))
          usdt
        match st.session_start_nav with
        | some snav => if snav = 0 then 0 else current_nav - snav
        | none => 0
      | none => 0
    { st with
      last_history_update := now
      pnl_history := lastN 100 (st.pnl_history ++ [{ time := now, value := total_pnl }]) }

/-- The JSON snapshot assembled by `get_status`, restricted to the modelled
fields (the per-strategy info block is a pure read of strategy state and is
omitted with it). -/
structure StatusSnapshot where
  is_running : Bool
  mode : String
  usdt : ℚ
  estimated_nav : ℚ
  pnl_current : ℚ
  pnl_history : List HPoint
  daily_realized : ℚ
  trades : List TradeRecord
  prices : List (String × ℚ)

/-- `BotController.get_status` (src/okx/okx_bot/server.py, lines 303-332) as
a state-passing fallible function.  The balance read is guarded
(`if self.balance and 'total' in self.balance else 0`), but
`"estimated_nav": self.session_start_nav + self.pnl_history[-1]['value'] if
self.pnl_history else 0` reads the `session_start_nav` attribute unguarded
whenever `pnl_history` is nonempty, which raises `AttributeError` when it
was never assigned.  No attribute is written, so the `ok` case returns the
state unchanged. -/
def get_status (st : BotState) (today : Int) :
    Except String (BotState × StatusSnapshot) :=
  let usdt := match st.balance with
    | some tot => (tot.lookup "USDT").getD 0
    | none => 0
  match st.pnl_history.getLast? with
  | some lastPoint =>
    match st.session_start_nav with
    | none => Except.error "AttributeError: session_start_nav"
    | some snav =>
      Except.ok (st,
        { is_running := st.is_running, mode := st.mode, usdt := usdt,
          estimated_nav := snav + lastPoint.value,
          pnl_current := lastPoint.value,
          pnl_history := st.pnl_history,
          daily_realized := calculate_daily_realized_pnl st.trades today,
          trades := st.trades, prices := st.market_prices })
  | none =>
    Except.ok (st,
      { is_running := st.is_running, mode := st.mode, usdt := usdt,
        estimated_nav := 0, pnl_current := 0,
        pnl_history := st.pnl_history,
        daily_realized := calculate_daily_realized_pnl st.trades today,
        trades := st.trades, prices := st.market_prices })

/-- `'pat' in symbol`: Python substring containment. -/
def strContains (s pat : String) : Bool := decide (pat.data <:+: s.data)

/-- The adaptive order size of `execute_order`: a chain of reassignments, so
for a symbol matching several patterns the last matching line wins. -/
def adaptiveAmount (symbol : String) : ℚ :=
  let amount : ℚ := 0.001
  let amount := if strContains symbol "ETC" then (0.1 : ℚ) else amount
  let amount := if strContains symbol "SOL" then (0.1 : ℚ) else amount
  let amount := if strContains symbol "DOGE" then (100 : ℚ) else amount
  let amount := if strContains symbol "ETH" then (0.01 : ℚ) else amount
  amount

/-- A fill returned by the order gateway: `order.get('timestamp', now_ms)`
(modelled as always present — the caller chooses the value), and the
possibly-missing `average` and `price` keys. -/
structure OrderFill where
  timestamp : Int
  average : Option ℚ
  price : Option ℚ

/-- Python truthiness of an optional float: `None` and `0.0` are falsy. -/
def truthyQ (o : Option ℚ) : Option ℚ :=
  o.bind fun x => if x = 0 then none else some x

/-- The trade dict built by `execute_order`: fill time (the source stores
`str(timestamp)`; the model keeps the number, see the header note), side,
`order.get('average') or order.get('price') or strategy.df.iloc[-1]['close']`
(Python `or`: first truthy value), the adaptive amount, and the symbol. -/
def mkFillTrade (o : OrderFill) (side symbol : String) (lastClose : ℚ) :
    TradeRecord :=
  { time := o.timestamp, side := side,
    price := ((truthyQ o.average).orElse fun _ => truthyQ o.price).getD lastClose,
    amount := adaptiveAmount symbol, symbol := symbol }

/-- `BotController.execute_order` (src/okx/okx_bot/server.py, lines 180-203),
restricted to the modelled fields: when the gateway returns a fill
(`order` truthy), insert the trade dict at the front of `self.trades`,
truncate to the 20 most recent (`self.trades[:20]`), and refresh the balance
cache; a failed order (`None`) changes nothing. -/
def execute_order (st : BotState) (side symbol : String)
    (order : Option OrderFill) (lastClose : ℚ)
    (newBalance : Option (List (String × ℚ))) : BotState :=
  match order with
  | none => st
  | some o =>
    let trade := mkFillTrade o side symbol lastClose
    { st with trades := (trade :: st.trades).take 20, balance := newBalance }

/-! ## Concrete fixtures used by example-scenario theorems and witnesses -/

/-- First example log of the spec: BUY 1 @100 at 10:00 UTC of epoch day 0. -/
def exBuy1 : TradeRecord :=
  { time := 36000000, side := "BUY", price := 100, amount := 1, symbol := "BTC/USDT" }

/-- First example log of the spec: SELL 1 @110 at 11:00 of the same day. -/
def exSell1 : TradeRecord :=
  { time := 39600000, side := "SELL", price := 110, amount := 1, symbol := "BTC/USDT" }

/-- Second example log of the spec: BUY 2 @100. -/
def exBuy2 : TradeRecord :=
  { time := 36000000, side := "BUY", price := 100, amount := 2, symbol := "BTC/USDT" }

/-- Second example log of the spec: SELL 1 @90 the same day. -/
def exSell2 : TradeRecord :=
  { time := 39600000, side := "SELL", price := 90, amount := 1, symbol := "BTC/USDT" }

/-- A LONG position entered at 100 with the default thresholds of
`TrendRSIStrategy.__init__` (3% stop-loss, 6% take-profit, RSI 30/70). -/
def sLong : StratState :=
  { position := some Pos.LONG, entry_price := 100, sl_pct := 3/100,
    tp_pct := 6/100, rsi_buy_thresh := 30, rsi_sell_thresh := 70 }

/-- A FLAT state with the same thresholds. -/
def sFlat : StratState :=
  { position := none, entry_price := 0, sl_pct := 3/100,
    tp_pct := 6/100, rsi_buy_thresh := 30, rsi_sell_thresh := 70 }

/-- A warm-up row: indicators still NaN. -/
def rowWarm : Row := { close := 100, sma_20 := none, rsi := none }

/-- A row with NaN indicators whose close price is far below the stop-loss
level of `sLong`. -/
def rowCrash : Row := { close := 50, sma_20 := none, rsi := none }

/-- A row with defined indicators satisfying the LONG entry condition. -/
def rowEntry : Row := { close := 100, sma_20 := some 95, rsi := some 25 }

/-- The controller state at process start (`BotController.__init__`),
restricted to the modelled fields. -/
def botInit : BotState :=
  { is_running := false, mode := "SINGLE", balance := none,
    session_start_nav := none, pnl_history := [], trades := [],
    market_prices := [], last_history_update := 0, active_symbols := [],
    last_trade_times := fun _ => 0 }

/-- A running controller with a recorded session baseline, for exercising
`stop`. -/
def botRunning : BotState :=
  { botInit with is_running := true, session_start_nav := some 1000 }

end OkxBot

/-! ## Theorems -/

namespace OkxBot

theorem pyUpper_BUY : pyUpper "BUY" = "BUY" := by decide

theorem pyUpper_SELL : pyUpper "SELL" = "SELL" := by decide

theorem dateOf_ex_buy : dateOf 36000000 = 0 := by decide

theorem dateOf_ex_sell : dateOf 39600000 = 0 := by decide

theorem sell_ne_buy : (("SELL" : String) = "BUY") = False := by decide

theorem pyUpper_not_buy_of_sell {s : String} (h : pyUpper s = "SELL") :
    ¬ pyUpper s = "BUY" := by
  rw [h]; decide

/-- C1: the daily realized PnL ledger processes the log in ascending time
order with one FIFO queue per symbol; each SELL realizes
`price*amount - cost_basis`, where the cost basis is taken FIFO from the
symbol's queue and any unmatched remainder is priced at the sale price (zero
PnL contribution), and only sells dated `today` are summed.  The first
conjunct is the general SELL law; the rest are the claim's two example
scenarios, including the remaining inventory lot of the second. -/
theorem C1_fifo_realized_pnl :
    (∀ (today : Int) (st : LedgerState) (t : TradeRecord),
        pyUpper t.side = "SELL" →
        stepTrade today st t =
          { inv := updInv st.inv t.symbol (consume t.amount (st.inv t.symbol)).2.2,
            pnl := st.pnl +
              (if dateOf t.time = today then
                t.price * t.amount -
                  ((consume t.amount (st.inv t.symbol)).1 +
                    (if 0 < (consume t.amount (st.inv t.symbol)).2.1 then
                      t.price * (consume t.amount (st.inv t.symbol)).2.1
                    else 0))
              else 0) }) ∧
    calculate_daily_realized_pnl [exBuy1, exSell1] 0 = 10 ∧
    calculate_daily_realized_pnl [exBuy2, exSell2] 0 = -10 ∧
    (runLedger [exBuy2, exSell2] 0).inv "BTC/USDT" = [{ price := 100, amount := 1 }] := by
  refine ⟨?_, ?_, ?_, ?_⟩
  · intro today st t h
    simp [stepTrade, h, pyUpper_not_buy_of_sell h]
  · have hs : List.mergeSort [exBuy1, exSell1] byTime = [exBuy1, exSell1] :=
      List.mergeSort_of_sorted (by decide)
    unfold calculate_daily_realized_pnl runLedger
    rw [hs]
    norm_num [List.foldl, stepTrade, consume, updInv, exBuy1, exSell1, pyUpper_BUY,
      pyUpper_SELL, dateOf_ex_buy, dateOf_ex_sell, sell_ne_buy]
  · have hs : List.mergeSort [exBuy2, exSell2] byTime = [exBuy2, exSell2] :=
      List.mergeSort_of_sorted (by decide)
    unfold calculate_daily_realized_pnl runLedger
    rw [hs]
    norm_num [List.foldl, stepTrade, consume, updInv, exBuy2, exSell2, pyUpper_BUY,
      pyUpper_SELL, dateOf_ex_buy, dateOf_ex_sell, sell_ne_buy]
  · have hs : List.mergeSort [exBuy2, exSell2] byTime = [exBuy2, exSell2] :=
      List.mergeSort_of_sorted (by decide)
    unfold runLedger
    rw [hs]
    norm_num [List.foldl, stepTrade, consume, updInv, exBuy2, exSell2, pyUpper_BUY,
      pyUpper_SELL, dateOf_ex_buy, dateOf_ex_sell, sell_ne_buy]

/-- Witness for `C1_fifo_realized_pnl`: the SELL law applied to the concrete
oversold trade `exSell1` on empty inventory (cost basis = sale price, zero
PnL contribution). -/
theorem C1_fifo_realized_pnl_witness :
    pyUpper exSell1.side = "SELL" ∧
    stepTrade 0 { inv := fun _ => [], pnl := 0 } exSell1 =
      { inv := updInv (fun _ => []) "BTC/USDT" [], pnl := 0 } := by
  refine ⟨by decide, ?_⟩
  have h := C1_fifo_realized_pnl.1 0 { inv := fun _ => [], pnl := 0 } exSell1 (by decide)
  rw [h]
  norm_num [exSell1, consume, dateOf_ex_sell]

theorem byTime_trans (a b c : TradeRecord) (h1 : byTime a b) (h2 : byTime b c) :
    byTime a c := by
  simp only [byTime, decide_eq_true_eq] at *
  omega

theorem byTime_total (a b : TradeRecord) : byTime a b || byTime b a := by
  simp only [byTime, Bool.or_eq_true, decide_eq_true_eq]
  omega

theorem mergeSort_byTime_idem (l : List TradeRecord) :
    (l.mergeSort byTime).mergeSort byTime = l.mergeSort byTime :=
  List.mergeSort_of_sorted (List.sorted_mergeSort byTime_trans byTime_total l)

/-- C2: recomputing the daily realized PnL is idempotent and leaves the
trade log unchanged.  `calcPnlCall` is the state-passing translation of the
method (see its doc comment); the third conjunct shows the figure is also
stable under the only internal reordering the method performs (sorting an
already-sorted log changes nothing). -/
theorem C2_pnl_idempotent_no_mutation (trades : List TradeRecord) (today : Int) :
    (calcPnlCall trades today).1 = trades ∧
    (calcPnlCall (calcPnlCall trades today).1 today).2 = (calcPnlCall trades today).2 ∧
    calculate_daily_realized_pnl (trades.mergeSort byTime) today =
      calculate_daily_realized_pnl trades today := by
  refine ⟨rfl, rfl, ?_⟩
  unfold calculate_daily_realized_pnl runLedger
  rw [mergeSort_byTime_idem]

/-- Two lists that are permutations of each other, both sorted by trade
time, with pairwise-distinct times, are equal. -/
theorem sorted_perm_nodup_time_eq :
    ∀ (l1 l2 : List TradeRecord), l1.Perm l2 →
      l1.Pairwise (fun a b => byTime a b) →
      l2.Pairwise (fun a b => byTime a b) →
      (l1.map TradeRecord.time).Nodup → l1 = l2
  | [], l2, hp, _, _, _ => hp.nil_eq
  | a :: t1, l2, hp, hs1, hs2, hnd => by
    cases l2 with
    | nil => exact absurd hp.symm.nil_eq (by simp)
    | cons b t2 =>
      rcases List.pairwise_cons.mp hs1 with ⟨ha1, hs1t⟩
      rcases List.pairwise_cons.mp hs2 with ⟨hb2, hs2t⟩
      rw [List.map_cons] at hnd
      obtain ⟨hnotin, hndt⟩ := List.nodup_cons.mp hnd
      have hab : a = b := by
        by_contra hne
        have hbmem : b ∈ a :: t1 := hp.symm.subset (List.mem_cons_self b t2)
        have hbt1 : b ∈ t1 := by
          rcases List.mem_cons.mp hbmem with h | h
          · exact absurd h.symm hne
          · exact h
        have hamem : a ∈ b :: t2 := hp.subset (List.mem_cons_self a t1)
        have hat2 : a ∈ t2 := by
          rcases List.mem_cons.mp hamem with h | h
          · exact absurd h hne
          · exact h
        have h1 : a.time ≤ b.time := by
          have := ha1 b hbt1
          simpa [byTime] using this
        have h2 : b.time ≤ a.time := by
          have := hb2 a hat2
          simpa [byTime] using this
        have heq : b.time = a.time := le_antisymm h2 h1
        exact hnotin (heq ▸ List.mem_map_of_mem TradeRecord.time hbt1)
      subst hab
      have hpt : t1.Perm t2 := hp.cons_inv
      rw [sorted_perm_nodup_time_eq t1 t2 hpt hs1t hs2t hndt]

/-- C8: for logs whose records carry pairwise-distinct timestamps, the daily
realized PnL does not depend on the order in which the records appear — the
ledger sorts by timestamp before FIFO matching. -/
theorem C8_order_independence (l1 l2 : List TradeRecord) (today : Int)
    (hp : l1.Perm l2) (hnd : (l1.map TradeRecord.time).Nodup) :
    calculate_daily_realized_pnl l1 today = calculate_daily_realized_pnl l2 today := by
  have hperm : (l1.mergeSort byTime).Perm (l2.mergeSort byTime) :=
    ((List.mergeSort_perm l1 byTime).trans hp).trans (List.mergeSort_perm l2 byTime).symm
  have hndm : ((l1.mergeSort byTime).map TradeRecord.time).Nodup :=
    (((List.mergeSort_perm l1 byTime).map TradeRecord.time).nodup_iff).mpr hnd
  have heq : l1.mergeSort byTime = l2.mergeSort byTime :=
    sorted_perm_nodup_time_eq _ _ hperm
      (List.sorted_mergeSort byTime_trans byTime_total l1)
      (List.sorted_mergeSort byTime_trans byTime_total l2)
      hndm
  unfold calculate_daily_realized_pnl runLedger
  rw [heq]

/-- Witness for `C8_order_independence`: the first example log and its
reversal. -/
theorem C8_order_independence_witness :
    [exBuy1, exSell1].Perm [exSell1, exBuy1] ∧
    ([exBuy1, exSell1].map TradeRecord.time).Nodup ∧
    calculate_daily_realized_pnl [exBuy1, exSell1] 0 =
      calculate_daily_realized_pnl [exSell1, exBuy1] 0 :=
  ⟨List.Perm.swap exSell1 exBuy1 [], by decide,
    C8_order_independence [exBuy1, exSell1] [exSell1, exBuy1] 0
      (List.Perm.swap exSell1 exBuy1 []) (by decide)⟩

end OkxBot

namespace OkxBot

theorem check_signals_eq (s : StratState) (df : List Row) (curr : Row)
    (h2 : 2 ≤ df.length) (hlast : df.getLast? = some curr) :
    check_signals s df = checkSignalsRow s curr := by
  unfold check_signals
  rw [if_neg (by omega), hlast]

/-- C3 counterexample: in phase LONG with a current row whose `sma_20` and
`rsi` are both NaN, `check_signals` still emits SELL (the stop-loss
comparison uses only the close and the entry price), refuting "returns no
signal for every phase". -/
theorem C3_counterexample :
    sLong.position = some Pos.LONG ∧
    rowCrash.sma_20 = none ∧ rowCrash.rsi = none ∧
    (check_signals sLong [rowWarm, rowCrash]).1 = some Signal.SELL := by
  refine ⟨rfl, rfl, rfl, ?_⟩
  rw [check_signals_eq sLong [rowWarm, rowCrash] rowCrash (by decide) rfl]
  norm_num [checkSignalsRow, sLong, rowCrash, nanGtc]

/-- C3 amended: an undefined indicator in the current row suppresses signal
generation in phase FLAT and disables every indicator-based predicate (both
entries and the RSI exit); in LONG/SHORT the price-only stop-loss and
take-profit exits can still fire, and they are then the only possible
signal.  `check_signals` is a total function, so it never raises. -/
theorem C3_nan_suppression (s : StratState) (df : List Row) (curr : Row)
    (h2 : 2 ≤ df.length) (hlast : df.getLast? = some curr) :
    (s.position = none → (curr.sma_20 = none ∨ curr.rsi = none) →
        check_signals s df = (none, s)) ∧
    (s.position = some Pos.LONG → curr.rsi = none →
        (((check_signals s df).1 = some Signal.SELL ↔
            (curr.close ≤ s.entry_price * (1 - s.sl_pct) ∨
             curr.close ≥ s.entry_price * (1 + s.tp_pct))) ∧
          (check_signals s df).1 ≠ some Signal.BUY)) ∧
    (s.position = some Pos.SHORT → curr.rsi = none →
        (((check_signals s df).1 = some Signal.BUY ↔
            (curr.close ≥ s.entry_price * (1 + s.sl_pct) ∨
             curr.close ≤ s.entry_price * (1 - s.tp_pct))) ∧
          (check_signals s df).1 ≠ some Signal.SELL)) := by
  rw [check_signals_eq s df curr h2 hlast]
  refine ⟨?_, ?_, ?_⟩
  · intro hpos hnan
    rcases hnan with h | h <;>
      simp [checkSignalsRow, hpos, h, nanGtv, nanLtv, nanGtc, nanLtc]
  · intro hpos hnan
    simp only [checkSignalsRow, hpos, hnan, nanGtc]
    split_ifs with hsl htp <;> simp_all
  · intro hpos hnan
    simp only [checkSignalsRow, hpos, hnan, nanLtc]
    split_ifs with hsl htp <;> simp_all

/-- Witness for `C3_nan_suppression`: a FLAT state with a NaN-indicator
current row produces no signal and leaves the state unchanged. -/
theorem C3_nan_suppression_witness :
    2 ≤ ([rowWarm, rowCrash] : List Row).length ∧
    check_signals sFlat [rowWarm, rowCrash] = (none, sFlat) :=
  ⟨by decide,
    (C3_nan_suppression sFlat [rowWarm, rowCrash] rowCrash (by decide) rfl).1
      rfl (Or.inl rfl)⟩

/-- C4: once LONG, a `check_signals` call emits at most one signal, and it
can only be SELL; SELL is emitted exactly when one of the three exit
predicates (stop-loss, take-profit, RSI above the sell threshold) holds on
the current row, the position then moves to FLAT (not re-entered within the
call, even if the row also satisfies an entry condition), and a no-signal
call leaves the state untouched. -/
theorem C4_long_only_sell (s : StratState) (df : List Row) (curr : Row)
    (hpos : s.position = some Pos.LONG) :
    ((check_signals s df).1 = none ∨ (check_signals s df).1 = some Signal.SELL) ∧
    (2 ≤ df.length → df.getLast? = some curr →
      (((check_signals s df).1 = some Signal.SELL ↔
          (curr.close ≤ s.entry_price * (1 - s.sl_pct) ∨
           curr.close ≥ s.entry_price * (1 + s.tp_pct) ∨
           nanGtc curr.rsi s.rsi_sell_thresh = true)) ∧
        ((check_signals s df).1 = some Signal.SELL →
          (check_signals s df).2 = { s with position := none }) ∧
        ((check_signals s df).1 = none → (check_signals s df).2 = s))) := by
  constructor
  · by_cases hl : df.length < 2
    · simp [check_signals, hl]
    · cases hg : df.getLast? with
      | none => simp [check_signals, hl, hg]
      | some c =>
        simp only [check_signals, hl, if_false, hg]
        simp only [checkSignalsRow, hpos]
        split_ifs <;> simp
  · intro h2 hlast
    rw [check_signals_eq s df curr h2 hlast]
    simp only [checkSignalsRow, hpos]
    split_ifs with hsl htp hrsi <;> simp_all

/-- Witness for `C4_long_only_sell`: from LONG, the emitted signal is `none`
or SELL on a concrete frame. -/
theorem C4_long_only_sell_witness :
    sLong.position = some Pos.LONG ∧
    ((check_signals sLong [rowWarm, rowCrash]).1 = none ∨
      (check_signals sLong [rowWarm, rowCrash]).1 = some Signal.SELL) :=
  ⟨rfl, (C4_long_only_sell sLong [rowWarm, rowCrash] rowCrash rfl).1⟩

/-- C5: from FLAT, `check_signals` returns BUY exactly when the close is
above the SMA trend reference and the RSI is below `rsi_buy_thresh`; it then
moves to LONG with `entry_price` set to that close. -/
theorem C5_flat_buy_iff (s : StratState) (df : List Row) (curr : Row) (m r : ℚ)
    (hpos : s.position = none) (h2 : 2 ≤ df.length)
    (hlast : df.getLast? = some curr)
    (hsma : curr.sma_20 = some m) (hrsi : curr.rsi = some r) :
    ((check_signals s df).1 = some Signal.BUY ↔
       (m < curr.close ∧ r < s.rsi_buy_thresh)) ∧
    (m < curr.close → r < s.rsi_buy_thresh →
       check_signals s df =
         (some Signal.BUY,
           { s with position := some Pos.LONG, entry_price := curr.close })) := by
  rw [check_signals_eq s df curr h2 hlast]
  simp only [checkSignalsRow, hpos, hsma, hrsi, nanGtv, nanLtv, nanGtc, nanLtc]
  constructor
  · split_ifs with h1 h2a <;> simp_all
  · intro hm hr
    rw [if_pos]
    simp [decide_eq_true_eq, hm, hr]

/-- Witness for `C5_flat_buy_iff`: a concrete pullback row (price above SMA,
RSI below the buy threshold) makes the FLAT engine buy and go LONG at the
close price. -/
theorem C5_flat_buy_iff_witness :
    sFlat.position = none ∧ (95 : ℚ) < rowEntry.close ∧
    (25 : ℚ) < sFlat.rsi_buy_thresh ∧
    check_signals sFlat [rowWarm, rowEntry] =
      (some Signal.BUY,
        { sFlat with position := some Pos.LONG, entry_price := rowEntry.close }) := by
  refine ⟨rfl, by norm_num [rowEntry], by norm_num [sFlat], ?_⟩
  exact (C5_flat_buy_iff sFlat [rowWarm, rowEntry] rowEntry 95 25 rfl (by decide)
    rfl rfl rfl).2 (by norm_num [rowEntry]) (by norm_num [sFlat])

/-- C6: the cooldown filter of `run_loop`.  An order executes only when a
signal is present and more than 300 s (hence at least 300 s) have elapsed
since the symbol's own last executed trade; execution stamps the symbol's
last-trade time; a second same-symbol signal within the 300 s window is
dropped with the state unchanged (so of two signals inside one window
exactly the first executes, and a dropped signal leaves no pending work);
a second signal strictly outside the window executes; and the filter for
one symbol never touches another symbol's cooldown clock. -/
theorem C6_cooldown (st : CoolState) (now t2 : ℚ) (sym other : String)
    (sig sig2 : Option Signal) :
    ((cooldownFilter st now sym sig).1 = true →
       sig ≠ none ∧ 300 ≤ now - st.last_trade_times sym) ∧
    ((cooldownFilter st now sym sig).1 = true →
       (cooldownFilter st now sym sig).2.last_trade_times sym = now) ∧
    ((cooldownFilter st now sym sig).1 = true → t2 - now ≤ 300 →
       cooldownFilter (cooldownFilter st now sym sig).2 t2 sym sig2 =
         (false, (cooldownFilter st now sym sig).2)) ∧
    ((cooldownFilter st now sym sig).1 = true → sig2 ≠ none → 300 < t2 - now →
       (cooldownFilter (cooldownFilter st now sym sig).2 t2 sym sig2).1 = true) ∧
    (other ≠ sym →
       (cooldownFilter st now sym sig).2.last_trade_times other =
         st.last_trade_times other) ∧
    ((cooldownFilter st now sym sig).1 = false →
       (cooldownFilter st now sym sig).2 = st) := by
  refine ⟨?_, ?_, ?_, ?_, ?_, ?_⟩
  · intro hex
    cases sig with
    | none => simp [cooldownFilter] at hex
    | some s1 =>
      simp only [cooldownFilter] at hex
      split_ifs at hex with hc
      exact ⟨by simp, by linarith⟩
  · intro hex
    cases sig with
    | none => simp [cooldownFilter] at hex
    | some s1 =>
      simp only [cooldownFilter] at hex
      split_ifs at hex with hc
      simp [cooldownFilter, hc]
  · intro hex ht2
    cases sig with
    | none => simp [cooldownFilter] at hex
    | some s1 =>
      simp only [cooldownFilter] at hex
      split_ifs at hex with hc
      cases sig2 with
      | none => simp [cooldownFilter, hc]
      | some s2 =>
        simp only [cooldownFilter, hc, if_true]
        rw [if_neg (by simp; linarith)]
  · intro hex hsig2 hgt
    cases sig with
    | none => simp [cooldownFilter] at hex
    | some s1 =>
      simp only [cooldownFilter] at hex
      split_ifs at hex with hc
      cases sig2 with
      | none => exact absurd rfl hsig2
      | some s2 =>
        simp only [cooldownFilter, hc, if_true]
        rw [if_pos (by simp; linarith)]
  · intro hother
    cases sig with
    | none => simp [cooldownFilter]
    | some s1 =>
      simp only [cooldownFilter]
      split_ifs with hc
      · simp [hother]
      · rfl
  · intro hex
    cases sig with
    | none => simp [cooldownFilter]
    | some s1 =>
      simp only [cooldownFilter] at hex ⊢
      split_ifs at hex ⊢ with hc
      rfl

/-- Witness for `C6_cooldown`: a first signal at t=1000 on a fresh state
executes, and a second one 200 s later is dropped without a state change. -/
theorem C6_cooldown_witness :
    (cooldownFilter ⟨fun _ => 0⟩ 1000 "BTC/USDT" (some Signal.BUY)).1 = true ∧
    (1200 : ℚ) - 1000 ≤ 300 ∧
    cooldownFilter (cooldownFilter ⟨fun _ => 0⟩ 1000 "BTC/USDT" (some Signal.BUY)).2
        1200 "BTC/USDT" (some Signal.SELL) =
      (false, (cooldownFilter ⟨fun _ => 0⟩ 1000 "BTC/USDT" (some Signal.BUY)).2) := by
  have hex : (cooldownFilter ⟨fun _ => 0⟩ 1000 "BTC/USDT" (some Signal.BUY)).1 = true := by
    norm_num [cooldownFilter]
  refine ⟨hex, by norm_num, ?_⟩
  exact (C6_cooldown ⟨fun _ => 0⟩ 1000 1200 "BTC/USDT" "x" (some Signal.BUY)
    (some Signal.SELL)).2.2.1 hex (by norm_num)

/-- C7: `get_status` can raise on a reachable controller state, contradicting
"never raises".  Reaching it: `start` succeeds while `get_balance` returns
`None` (its failure result), so `session_start_nav` is never assigned; the
first loop cycle appends a PnL history point; `get_status` then evaluates
`self.session_start_nav + self.pnl_history[-1]['value']` and hits
`AttributeError`.  (The no-mutation half of the claim holds: the `ok` branch
of the embedded `get_status` returns the state unchanged.) -/
theorem C7_status_raises :
    get_status (update_history_data
        (start botInit "SINGLE" ["BTC/USDT"] none (fun _ => none)).1 1000) 0 =
      Except.error "AttributeError: session_start_nav" := by
  norm_num [start, update_history_data, get_status, botInit, lastN]

/-- C9 counterexample: stopping a running controller whose baseline is 1000
reports "Bot stopped" yet leaves `session_start_nav = some 1000` — `stop`
does not clear the session baseline. -/
theorem C9_counterexample :
    botRunning.is_running = true ∧
    (stop botRunning).2 = "Bot stopped" ∧
    (stop botRunning).1.is_running = false ∧
    (stop botRunning).1.session_start_nav = some 1000 := by
  refine ⟨rfl, rfl, rfl, rfl⟩

/-- C9 amended: the session baseline is set by each successful `start` whose
balance snapshot has totals (to the NAV of that snapshot), `start` while
running changes nothing, and `stop` preserves the baseline — it persists
until the next `start` overwrites it, rather than being cleared. -/
theorem C9_baseline_lifecycle (st : BotState) (mode : String)
    (symbols : List String) (tot : List (String × ℚ))
    (fp : String → Option ℚ) :
    ((stop st).1.session_start_nav = st.session_start_nav) ∧
    (st.is_running = false →
       (start st mode symbols (some tot) fp).1.session_start_nav =
         some (navOf tot st.market_prices fp)) ∧
    (st.is_running = true →
       start st mode symbols (some tot) fp = (st, "Bot already running")) := by
  refine ⟨?_, ?_, ?_⟩
  · unfold stop
    split_ifs <;> rfl
  · intro h
    simp [start, h]
  · intro h
    simp [start, h]

/-- Witness for `C9_baseline_lifecycle`: starting a stopped controller with
a concrete balance snapshot records its NAV as the session baseline. -/
theorem C9_baseline_lifecycle_witness :
    botInit.is_running = false ∧
    (start botInit "SINGLE" ["BTC/USDT"] (some [("USDT", 500)])
        (fun _ => none)).1.session_start_nav =
      some (navOf [("USDT", 500)] botInit.market_prices (fun _ => none)) :=
  ⟨rfl, (C9_baseline_lifecycle botInit "SINGLE" ["BTC/USDT"] [("USDT", 500)]
    (fun _ => none)).2.1 rfl⟩

/-- C10: every executed fill is inserted at the front of the trade log,
which is immediately truncated to its 20 most recent records (equivalently,
the fill followed by the 19 newest previous records), so its length never
exceeds 20, and the daily realized PnL is computed from exactly that
retained list — older fills no longer contribute. -/
theorem C10_trade_log_bounded (st : BotState) (side symbol : String)
    (o : OrderFill) (lastClose : ℚ) (nb : Option (List (String × ℚ)))
    (today : Int) :
    (execute_order st side symbol (some o) lastClose nb).trades =
      (mkFillTrade o side symbol lastClose :: st.trades).take 20 ∧
    (execute_order st side symbol (some o) lastClose nb).trades =
      mkFillTrade o side symbol lastClose :: st.trades.take 19 ∧
    (execute_order st side symbol (some o) lastClose nb).trades.head? =
      some (mkFillTrade o side symbol lastClose) ∧
    (execute_order st side symbol (some o) lastClose nb).trades.length ≤ 20 ∧
    calculate_daily_realized_pnl
        (execute_order st side symbol (some o) lastClose nb).trades today =
      calculate_daily_realized_pnl
        ((mkFillTrade o side symbol lastClose :: st.trades).take 20) today := by
  refine ⟨rfl, rfl, rfl, ?_, rfl⟩
  have h : (execute_order st side symbol (some o) lastClose nb).trades =
      (mkFillTrade o side symbol lastClose :: st.trades).take 20 := rfl
  rw [h]
  exact List.length_take_le 20 _

end OkxBot
